import Mathlib

/-
  Verification development for the code-analyzer repository.

  Shallow embedding of the verification-orchestration subsystem:
    - src/services/startup_analyzer.py   (StartupConfig, analyze_startup_method)
    - src/services/sandbox/project_runner.py (RunningProject, ProjectRunner)
    - src/services/sandbox/test_runner.py (TestRunner.run_functional_verification)
    - src/rest/analyze.py                (_analyze_with_verification boundary)

  Conventions of the embedding:
    * Python exceptions are modelled with `Except PyExc`; `Except.error`
      models a raised exception propagating to the caller.
    * The outside world (filesystem reads, subprocess results, LLM calls,
      HTTP health probes, uuid generation) is an oracle record `Env`;
      each embedded function is a pure function of the oracle.
    * `ProjectRunner.running_projects` (the live-instance table) is the
      state `RunnerState`, threaded explicitly.
    * Every function that can spawn a subprocess also returns the list of
      shell command strings it actually executed (its trace), so that
      "no provisioning command was run" is an observable statement.
    * Python attribute access on a dataclass field that is never declared
      nor assigned raises AttributeError; the dataclasses `StartupConfig`
      and `RunningProject` declare exactly the fields listed in the source,
      and the accesses `config.working_dir`, `config.stop_command` and
      `project.container_name` (which appear in project_runner.py and
      test_runner.py but match no declared field) are embedded as
      error-returning accessors.
-/

namespace CodeAnalyzer

/-! ## String helpers with Python semantics -/

/-- Char-list prefix test (used to model Python `str.startswith` and
substring search on ASCII strings). -/
def listPre : List Char → List Char → Bool
  | [], _ => true
  | _ :: _, [] => false
  | a :: as, b :: bs => a == b && listPre as bs

/-- Does `pat` occur in `hay` at position `i`? -/
def subAt (hay pat : List Char) (i : Nat) : Bool :=
  listPre pat (hay.drop i)

/-- First index at which `pat` occurs in `hay`, if any
(Python `str.find` restricted to successful search). -/
def findSubIdx (hay pat : String) : Option Nat :=
  (List.range (hay.data.length + 1)).find? (fun i => subAt hay.data pat.data i)

/-- Python `pat in hay` substring test. -/
def containsSub (hay pat : String) : Bool :=
  (findSubIdx hay pat).isSome

/-- Python `hay.find(pat, start)`: first index `≥ start`, `-1` when absent. -/
def pyFindFrom (hay pat : String) (start : Nat) : Int :=
  match (List.range (hay.data.length + 1)).find?
      (fun i => Nat.ble start i && subAt hay.data pat.data i) with
  | some i => (i : Int)
  | none => -1

/-- Python slice `s[a:b]` for `a ≥ 0`; a negative `b` counts from the end. -/
def pySlice (s : String) (a : Nat) (b : Int) : String :=
  let len : Int := (s.data.length : Int)
  let bb : Int := if b < 0 then len + b else b
  String.mk ((s.data.take bb.toNat).drop a)

/-- Python `os.path.join(a, b)` for the cases exercised by the source
(absolute second argument wins; otherwise concatenation with a slash). -/
def pathJoin (a b : String) : String :=
  if listPre "/".data b.data then b
  else if a = "" then b
  else if listPre "/".data a.data.reverse then a ++ b
  else a ++ "/" ++ b

/-! ## Data model (schema/response.py, startup_analyzer.py, project_runner.py) -/

/-- Python exception values raised by the embedded code; `userError`
stands for pydantic_ai's UserError, raised e.g. by `AnthropicProvider`
when the configured api_key is falsy (settings.py defaults it to the
empty string). -/
inductive PyExc where
  | runtimeError (msg : String)
  | attributeError (msg : String)
  | userError (msg : String)
deriving DecidableEq

/-- Python `str(e)` for the exceptions above. -/
def PyExc.message : PyExc → String
  | .runtimeError m => m
  | .attributeError m => m
  | .userError m => m

/-- `StartupConfig` dataclass, startup_analyzer.py lines 17-28.
These are exactly the declared fields; in particular there is no
`working_dir` and no `stop_command` field. -/
structure StartupConfig where
  start_method : String
  runtime : String
  install_command : String
  start_command : String
  health_check_url : Option String
  service_port : Int
  estimated_startup_time : Int
  reason : String
deriving DecidableEq

/-- `RunningProject` dataclass, project_runner.py lines 20-27.
No `container_name` field is declared. -/
structure RunningProject where
  project_id : String
  project_dir : String
  config : StartupConfig
  is_running : Bool := false
deriving DecidableEq

/-- `ExecutionResult` response model, schema/response.py. -/
structure ExecutionResult where
  tests_passed : Bool
  log : String
deriving DecidableEq

/-- `FunctionalVerification` response model, schema/response.py. -/
structure FunctionalVerification where
  generated_test_code : String
  execution_result : ExecutionResult
deriving DecidableEq

/-- Access to `config.working_dir` (project_runner.py lines 100, 124, 159,
175): `StartupConfig` declares no such field and no code assigns one, so
Python attribute lookup raises AttributeError. -/
def working_dir_attr (_ : StartupConfig) : Except PyExc String :=
  Except.error (PyExc.attributeError
    "\x27StartupConfig\x27 object has no attribute \x27working_dir\x27")

/-- Access to `config.stop_command` (project_runner.py line 111): no such
field is declared, so the lookup raises AttributeError. -/
def stop_command_attr (_ : StartupConfig) : Except PyExc String :=
  Except.error (PyExc.attributeError
    "\x27StartupConfig\x27 object has no attribute \x27stop_command\x27")

/-- Access to `project.container_name` (test_runner.py line 195):
`RunningProject` declares no such field, so the lookup raises
AttributeError. -/
def container_name_attr (_ : RunningProject) : Except PyExc String :=
  Except.error (PyExc.attributeError
    "\x27RunningProject\x27 object has no attribute \x27container_name\x27")

/-- Outcome of one subprocess (`asyncio.create_subprocess_shell` plus
`communicate`, possibly under `asyncio.wait_for`): whether the applicable
timeout expired, and otherwise exit status and captured streams. -/
structure ShellOutcome where
  timedOut : Bool
  returncode : Int
  stdout : String
  stderr : String

/-- Result of Python-side fence extraction plus `json.loads` plus dict
access on the startup-analysis LLM response, as an oracle value: `none`
models any exception on that path (malformed JSON, non-dict data), a
`some` carries the fields the dict provides. -/
structure ParsedData where
  start_method : Option String
  runtime : Option String
  install_command : Option String
  start_command : Option String
  health_check_url : Option String
  service_port : Option Int
  estimated_startup_time : Option Int
  reason : Option String

/-- The world oracle: filesystem, subprocesses, LLM collaborators, HTTP
health probes, uuid/tempfile names, wall-clock elapsed time during health
polling, and the container logs that exist in the world (the code never
reads them). `agentInit` is the outcome of the
`AnthropicProvider`/`AnthropicModel`/`Agent` construction of
startup_analyzer.py lines 123-132, which sits outside that function's
try block (line 134) and can raise (pydantic_ai raises UserError when the
api_key is falsy, and settings.py defaults it to ""); `llm` is the
outcome of the guarded `agent.run` call. -/
structure Env where
  files : String → Option String
  parseJson : String → Option ParsedData
  agentInit : Except PyExc Unit
  llm : Except PyExc String
  genTests : Except PyExc String
  shell : String → ShellOutcome
  freshId : String
  testToken : String
  tempName : String
  elapsedAt : Nat → Nat
  probe : Nat → Option Int
  containerLogs : String

/-- The live-instance table `ProjectRunner.running_projects`:
`project_id -> RunningProject`. -/
abbrev RunnerState := String → Option RunningProject

/-- Empty table (fresh `ProjectRunner`). -/
def tableEmpty : RunnerState := fun _ => none

/-- Python dict assignment `self.running_projects[k] = v`. -/
def tableInsert (st : RunnerState) (k : String) (v : RunningProject) : RunnerState :=
  fun x => if x = k then some v else st x

/-- Python `self.running_projects.pop(k, None)` (as a state effect). -/
def tableRemove (st : RunnerState) (k : String) : RunnerState :=
  fun x => if x = k then none else st x

/-! ## startup_analyzer.py -/

/-- `files_to_check`, startup_analyzer.py lines 81-91. -/
def files_to_check : List String :=
  ["package.json", "docker-compose.yml", "docker-compose.yaml", "Dockerfile",
   "README.md", "pyproject.toml", "requirements.txt", ".env.example", "Makefile"]

/-- Truncation of large config files, startup_analyzer.py lines 100-101. -/
def truncateContent (c : String) : String :=
  if 5000 < c.length then c.take 5000 ++ "\n... (truncated)" else c

/-- The `config_files` collection loop, startup_analyzer.py lines 93-104;
a file whose read raises is skipped (per-file try/except), which the
`files` oracle folds into `none`. -/
def collect_config_files (env : Env) (project_dir : String) : List (String × String) :=
  files_to_check.filterMap
    (fun n => (env.files (pathJoin project_dir n)).map (fun c => (n, truncateContent c)))

/-- `_default_config`, startup_analyzer.py lines 167-178. -/
def default_config : StartupConfig :=
  { start_method := "unknown"
  , runtime := "node:20"
  , install_command := ""
  , start_command := ""
  , health_check_url := none
  , service_port := 3000
  , estimated_startup_time := 90
  , reason := "Analysis failed, using defaults" }

/-- `StartupConfig` construction from the parsed dict with `data.get`
defaults, startup_analyzer.py lines 151-160. -/
def buildConfig (d : ParsedData) : StartupConfig :=
  { start_method := d.start_method.getD "unknown"
  , runtime := d.runtime.getD "node:20"
  , install_command := d.install_command.getD ""
  , start_command := d.start_command.getD ""
  , health_check_url := d.health_check_url
  , service_port := d.service_port.getD 3000
  , estimated_startup_time := d.estimated_startup_time.getD 90
  , reason := d.reason.getD "" }

/-- `analyze_startup_method`, startup_analyzer.py lines 68-164.
No config files -> default, returned at lines 106-108 before any LLM
client is built. Otherwise the `AnthropicProvider`/`AnthropicModel`/
`Agent` construction at lines 123-132 runs unguarded — the try block only
begins at line 134 — so a constructor failure (`agentInit` error)
propagates to the caller. Inside the try, any exception from `agent.run`
or from JSON parsing/dict access (lines 134-164) yields the default. -/
def analyze_startup_method (env : Env) (project_dir : String) :
    Except PyExc StartupConfig :=
  let config_files := collect_config_files env project_dir
  if config_files.isEmpty then Except.ok default_config
  else
    match env.agentInit with
    | Except.error e => Except.error e
    | Except.ok _ =>
      match env.llm with
      | Except.error _ => Except.ok default_config
      | Except.ok response =>
        match env.parseJson response with
        | none => Except.ok default_config
        | some d => Except.ok (buildConfig d)

/-! ## project_runner.py -/

/-- `STARTUP_TIMEOUT`, project_runner.py line 17. -/
def STARTUP_TIMEOUT : Nat := 120

/-- Drop the captured output of a command, keeping the exception. -/
def discardOut : Except PyExc (String × String) → Except PyExc Unit
  | Except.ok _ => Except.ok ()
  | Except.error e => Except.error e

/-- `ProjectRunner._run_command`, project_runner.py lines 229-256: on
timeout the process is killed and a RuntimeError is raised; otherwise the
captured stdout/stderr are returned, a non-zero exit status only logs a
warning and returns normally. The second component is the trace of
commands spawned. -/
def run_command (env : Env) (cmd cwd : String) (timeout : Nat) :
    Except PyExc (String × String) × List String :=
  let o := env.shell cmd
  let _ := cwd
  if o.timedOut then
    (Except.error (PyExc.runtimeError
      ("Command timeout after " ++ toString timeout ++ "s: " ++ cmd)), [cmd])
  else
    (Except.ok (o.stdout, o.stderr), [cmd])

/-- `ProjectRunner._start_docker_compose`, project_runner.py lines 121-154.
The first statement reads `config.working_dir`, which raises before the
compose-manifest check is reached; the `.env.example` copying (a pure
filesystem side effect never read back by the embedded code) and the
compose invocation are the unreachable continuation. -/
def start_docker_compose (env : Env) (project : RunningProject) :
    Except PyExc Unit × List String :=
  let config := project.config
  match working_dir_attr config with
  | Except.error e => (Except.error e, [])
  | Except.ok wdRel =>
    let working_dir := pathJoin project.project_dir wdRel
    let project_name := "ca-" ++ project.project_id
    match (["docker-compose.yml", "docker-compose.yaml"]).find?
        (fun n => (env.files (pathJoin working_dir n)).isSome) with
    | none => (Except.error (PyExc.runtimeError "docker-compose.yml not found"), [])
    | some compose_file =>
      let cmd := "docker-compose -p " ++ project_name ++ " -f " ++ compose_file
        ++ " up -d --build"
      let r := run_command env cmd working_dir STARTUP_TIMEOUT
      (discardOut r.1, r.2)

/-- `ProjectRunner._start_dockerfile`, project_runner.py lines 156-170.
Again `config.working_dir` raises first; build and run are the
continuation. -/
def start_dockerfile (env : Env) (project : RunningProject) :
    Except PyExc Unit × List String :=
  let config := project.config
  match working_dir_attr config with
  | Except.error e => (Except.error e, [])
  | Except.ok wdRel =>
    let working_dir := pathJoin project.project_dir wdRel
    let container_name := "ca-" ++ project.project_id
    let image_name := "ca-image-" ++ project.project_id
    let build_cmd := "docker build -t " ++ image_name ++ " ."
    let rb := run_command env build_cmd working_dir STARTUP_TIMEOUT
    match rb.1 with
    | Except.error e => (Except.error e, rb.2)
    | Except.ok _ =>
      let port := toString config.service_port
      let runContainerCmd := "docker run -d --name " ++ container_name ++ " -p "
        ++ port ++ ":" ++ port ++ " " ++ image_name
      let rr := run_command env runContainerCmd working_dir 30
      (discardOut rr.1, rb.2 ++ rr.2)

/-- The `docker run` command string built by `_start_native`,
project_runner.py lines 179-194: image and default command are chosen by
`start_method`, the command is `config.start_command` when that string is
truthy and the runtime-specific install-and-start default otherwise;
`install_command` is not consulted. -/
def nativeDockerCmd (config : StartupConfig) (container_name working_dir : String) :
    String :=
  let port := toString config.service_port
  let image := if config.start_method = "npm" then "node:20-slim" else "python:3.12-slim"
  let cmd :=
    if config.start_method = "npm" then
      (if config.start_command = "" then "npm install && npm start"
       else config.start_command)
    else
      (if config.start_command = "" then "pip install -r requirements.txt && python main.py"
       else config.start_command)
  "docker run -d --name " ++ container_name ++ " -p " ++ port ++ ":" ++ port
    ++ " -v " ++ working_dir ++ ":/app -w /app " ++ image
    ++ " sh -c \x27" ++ cmd ++ "\x27"

/-- `ProjectRunner._start_native`, project_runner.py lines 172-195: reads
`config.working_dir` (raises), then would run the native docker command
detached. -/
def start_native (env : Env) (project : RunningProject) :
    Except PyExc Unit × List String :=
  let config := project.config
  match working_dir_attr config with
  | Except.error e => (Except.error e, [])
  | Except.ok wdRel =>
    let working_dir := pathJoin project.project_dir wdRel
    let container_name := "ca-" ++ project.project_id
    let docker_cmd := nativeDockerCmd config container_name working_dir
    let r := run_command env docker_cmd working_dir STARTUP_TIMEOUT
    (discardOut r.1, r.2)

/-- Message of the health-check timeout RuntimeError,
project_runner.py line 217. -/
def health_timeout_msg : String :=
  "Health check timeout after " ++ toString STARTUP_TIMEOUT ++ "s"

/-- Python truthiness of `health_check_url` (`if not health_url:`,
project_runner.py line 202): `None` and the empty string are falsy. -/
def optFalsy : Option String → Bool
  | none => true
  | some s => s == ""

/-- The polling loop of `_wait_for_health`, project_runner.py lines
210-227: at iteration `i` the elapsed time is `env.elapsedAt i`; if it
exceeds `STARTUP_TIMEOUT` a RuntimeError is raised; otherwise one HTTP GET
is issued (`env.probe i`; `none` is a connection error, swallowed and
logged at debug level), a response with status below 500 returns success,
anything else sleeps 2s and loops. The `fuel` argument makes the
recursion structural; since each iteration sleeps 2 seconds, any
real-time oracle satisfies `2 * i ≤ elapsedAt i` and the loop ends within
61 iterations, so a fuel of 200 is never exhausted; for totality the
exhaustion case is mapped to the very timeout error the deadline check
raises. -/
def health_loop (env : Env) : Nat → Nat → Except PyExc Unit
  | 0, _ => Except.error (PyExc.runtimeError health_timeout_msg)
  | Nat.succ fuel, i =>
    if STARTUP_TIMEOUT < env.elapsedAt i then
      Except.error (PyExc.runtimeError health_timeout_msg)
    else
      match env.probe i with
      | some status =>
        if status < 500 then Except.ok ()
        else health_loop env fuel (i + 1)
      | none => health_loop env fuel (i + 1)

/-- `ProjectRunner._wait_for_health`, project_runner.py lines 197-227:
without a (truthy) health URL, sleep `estimated_startup_time` seconds and
return success unconditionally; with one, poll as in `health_loop`. -/
def wait_for_health (env : Env) (project : RunningProject) : Except PyExc Unit :=
  if optFalsy project.config.health_check_url then Except.ok ()
  else health_loop env 200 0

/-- `ProjectRunner.stop_project`, project_runner.py lines 89-119: the try
block first reads `config.working_dir` (raises AttributeError), then would
dispatch teardown by method; every exception is caught and only logged
(lines 114-115); the finally block (lines 117-119) always clears
`is_running` and pops the table entry. Returns the mutated project, the
new table, and the trace of commands that actually ran. -/
def stop_project (env : Env) (st : RunnerState) (project : RunningProject) :
    RunningProject × RunnerState × List String :=
  let config := project.config
  let attempt : Except PyExc Unit × List String :=
    match working_dir_attr config with
    | Except.error e => (Except.error e, [])
    | Except.ok wdRel =>
      let working_dir := pathJoin project.project_dir wdRel
      if config.start_method = "docker-compose" then
        let cmd := "docker-compose -p ca-" ++ project.project_id
          ++ " down -v --remove-orphans"
        let r := run_command env cmd working_dir 60
        (discardOut r.1, r.2)
      else if config.start_method = "dockerfile" then
        let cn := "ca-" ++ project.project_id
        let r := run_command env ("docker rm -f " ++ cn) working_dir 30
        (discardOut r.1, r.2)
      else
        match stop_command_attr config with
        | Except.error e => (Except.error e, [])
        | Except.ok sc =>
          if sc = "" then (Except.ok (), [])
          else
            let r := run_command env sc working_dir 30
            (discardOut r.1, r.2)
  ({ project with is_running := false },
   tableRemove st project.project_id,
   attempt.2)

/-- `ProjectRunner.start_project`, project_runner.py lines 40-87: create
the `RunningProject` with a fresh id, dispatch on `start_method`, wait for
health; only then set `is_running` and insert into the table (lines
78-79). On any exception, `stop_project` runs on the partially
constructed project and a RuntimeError wrapping the original message is
raised (lines 84-87). -/
def start_project (env : Env) (st : RunnerState) (project_dir : String)
    (config : StartupConfig) :
    Except PyExc RunningProject × RunnerState × List String :=
  let project_id := env.freshId
  let project : RunningProject :=
    { project_id := project_id, project_dir := project_dir
    , config := config, is_running := false }
  let attempt : Except PyExc Unit × List String :=
    if config.start_method = "docker-compose" then start_docker_compose env project
    else if config.start_method = "dockerfile" then start_dockerfile env project
    else if config.start_method = "npm" ∨ config.start_method = "python" then
      start_native env project
    else
      (Except.error (PyExc.runtimeError ("Unknown start method: " ++ config.start_method)), [])
  match attempt.1 with
  | Except.ok _ =>
    match wait_for_health env project with
    | Except.ok _ =>
      let started := { project with is_running := true }
      (Except.ok started, tableInsert st project_id started, attempt.2)
    | Except.error e =>
      let s := stop_project env st project
      (Except.error (PyExc.runtimeError ("Failed to start project: " ++ e.message)),
       s.2.1, attempt.2 ++ s.2.2)
  | Except.error e =>
    let s := stop_project env st project
    (Except.error (PyExc.runtimeError ("Failed to start project: " ++ e.message)),
     s.2.1, attempt.2 ++ s.2.2)

/-! ## test_runner.py -/

/-- Markdown code-fence cleanup of the generated test code,
test_runner.py lines 268-280 (Python `str.strip` modelled by
`String.trim`). -/
def stripFences (t : String) : String :=
  let fjs := "\x60\x60\x60javascript"
  let fj := "\x60\x60\x60js"
  let f := "\x60\x60\x60"
  if containsSub t fjs then
    let s := (pyFindFrom t fjs 0) + 13
    let e := pyFindFrom t f s.toNat
    (pySlice t s.toNat e).trim
  else if containsSub t fj then
    let s := (pyFindFrom t fj 0) + 5
    let e := pyFindFrom t f s.toNat
    (pySlice t s.toNat e).trim
  else if containsSub t f then
    let s := (pyFindFrom t f 0) + 3
    let e := pyFindFrom t f s.toNat
    (pySlice t s.toNat e).trim
  else t

/-- `TestRunner._generate_tests`, test_runner.py lines 219-286: prompt
assembly is pure, the LLM call may raise (oracle `genTests`), the response
is fence-stripped. -/
def generate_tests (env : Env) : Except PyExc String :=
  match env.genTests with
  | Except.error e => Except.error e
  | Except.ok out => Except.ok (stripFences out)

/-- Test file name `test_{uuid.uuid4().hex[:8]}.mjs`, test_runner.py
line 299. -/
def test_filename (env : Env) : String :=
  "test_" ++ env.testToken ++ ".mjs"

/-- Container-side test path, test_runner.py line 311. -/
def container_test_path (env : Env) : String :=
  "/tmp/" ++ test_filename env

/-- `docker cp` command, test_runner.py line 312. -/
def copy_cmd (env : Env) (container_name : String) : String :=
  "docker cp " ++ env.tempName ++ " " ++ container_name ++ ":" ++ container_test_path env

/-- `docker exec ... node ...` command, test_runner.py line 329. -/
def exec_cmd (env : Env) (container_name : String) : String :=
  "docker exec " ++ container_name ++ " node " ++ container_test_path env

/-- Cleanup command of the finally block, test_runner.py line 372. -/
def cleanup_cmd (env : Env) (container_name : String) : String :=
  "docker exec " ++ container_name ++ " rm -f " ++ container_test_path env

/-- `TestRunner._execute_tests`, test_runner.py lines 288-380: copy the
test file into the container (no timeout; a non-zero exit returns a
failure dict), run it under a 60s timeout (expiry kills the process and
returns a failure dict, it does not raise), otherwise combine stdout and
a non-empty stderr, `passed` is exit status zero and an all-whitespace
log becomes "(no output)". The finally block always runs the in-container
cleanup command. Returns ((passed, log), trace). -/
def execute_tests (env : Env) (test_code container_name : String) :
    (Bool × String) × List String :=
  let _ := test_code
  let ccmd := copy_cmd env container_name
  let ecmd := exec_cmd env container_name
  let rmcmd := cleanup_cmd env container_name
  let co := env.shell ccmd
  if co.returncode ≠ 0 then
    ((false, "Failed to copy test file to container"), [ccmd, rmcmd])
  else
    let eo := env.shell ecmd
    if eo.timedOut then
      ((false, "Test execution timeout (60s)"), [ccmd, ecmd, rmcmd])
    else
      let log := eo.stdout ++ (if eo.stderr = "" then "" else "\n" ++ eo.stderr)
      let logT := log.trim
      ((eo.returncode == 0, if logT = "" then "(no output)" else logT),
       [ccmd, ecmd, rmcmd])

/-- `TestRunner.run_functional_verification`, test_runner.py lines
131-217. Stage 1 calls `analyze_startup_method`, whose raise (only
possible from the unguarded LLM-client construction) propagates with the
`project` local still unset, so the finally performs no cleanup; the
`unknown` sentinel raises RuntimeError; stage 2 starts the project (the
`project` local stays unset when this raises); stages 3-4 generate and
execute the tests, reading `project.container_name` in between
(test_runner.py line 195); the source's finally block stops the project
whenever the local was assigned, on success and on every failure alike —
here that finally is inlined into each branch reached after a successful
start. Progress emission (`emit`) only invokes the optional callback and
logs; it is control-flow neutral and omitted. -/
def run_functional_verification (env : Env) (st : RunnerState) (project_dir : String) :
    Except PyExc FunctionalVerification × RunnerState × List String :=
  match analyze_startup_method env project_dir with
  | Except.error e => (Except.error e, st, [])
  | Except.ok startup_config =>
    if startup_config.start_method = "unknown" then
      (Except.error (PyExc.runtimeError "Could not determine how to start the project"),
       st, [])
    else
      match start_project env st project_dir startup_config with
      | (Except.error e, st1, tr) => (Except.error e, st1, tr)
      | (Except.ok project, st1, tr) =>
        match generate_tests env with
        | Except.error e =>
          let s := stop_project env st1 project
          (Except.error e, s.2.1, tr ++ s.2.2)
        | Except.ok test_code =>
          match container_name_attr project with
          | Except.error e =>
            let s := stop_project env st1 project
            (Except.error e, s.2.1, tr ++ s.2.2)
          | Except.ok cname =>
            let r := execute_tests env test_code cname
            let s := stop_project env st1 project
            (Except.ok
              { generated_test_code := test_code
              , execution_result := { tests_passed := r.1.1, log := r.1.2 } },
             s.2.1, tr ++ r.2 ++ s.2.2)

/-- The verification part of `_analyze_with_verification`,
rest/analyze.py lines 246-268: any exception from
`run_functional_verification` is caught and converted into a non-fatal
`FunctionalVerification` with `tests_passed=False` and the error text in
the log, so the surrounding analysis response never observes an
exception. -/
def verification_boundary (env : Env) (st : RunnerState) (project_dir : String) :
    FunctionalVerification × RunnerState :=
  match run_functional_verification env st project_dir with
  | (Except.ok v, st1, _) => (v, st1)
  | (Except.error e, st1, _) =>
    ({ generated_test_code := "# Verification failed: " ++ e.message
     , execution_result := { tests_passed := false, log := "Error: " ++ e.message } },
     st1)

/-! ## Operation sequences over the live-instance table -/

/-- One lifecycle operation against a `ProjectRunner`'s table. -/
inductive SandboxOp where
  | startOp (env : Env) (project_dir : String) (config : StartupConfig)
  | stopOp (env : Env) (project : RunningProject)

/-- Effect of one operation on the live-instance table. -/
def applyOp (st : RunnerState) : SandboxOp → RunnerState
  | SandboxOp.startOp env pd cfg => (start_project env st pd cfg).2.1
  | SandboxOp.stopOp env p => (stop_project env st p).2.1

/-- Invariant claimed of the live-instance table: every stored project is
flagged running. -/
def TableInv (st : RunnerState) : Prop :=
  ∀ id p, st id = some p → p.is_running = true

/-! ## Concrete worlds and values used to instantiate the theorems -/

/-- A `ShellOutcome` of a command that ran fine with empty output. -/
def shellOk : ShellOutcome :=
  { timedOut := false, returncode := 0, stdout := "", stderr := "" }

/-- Baseline world: empty filesystem, unreachable LLM backends, quiet
shell, probes that never connect, wall clock advancing two seconds per
health-poll iteration. -/
def envNone : Env :=
  { files := fun _ => none
  , parseJson := fun _ => none
  , agentInit := Except.ok ()
  , llm := Except.error (PyExc.runtimeError "LLM unavailable")
  , genTests := Except.error (PyExc.runtimeError "LLM unavailable")
  , shell := fun _ => shellOk
  , freshId := "abc12345"
  , testToken := "deadbeef"
  , tempName := "/tmp/tmpq1w2e3"
  , elapsedAt := fun i => 2 * i
  , probe := fun _ => none
  , containerLogs := "connection refused" }

/-- A concrete npm startup plan (shape of the prompt example in
startup_analyzer.py). -/
def cfg_npm : StartupConfig :=
  { start_method := "npm"
  , runtime := "node:20"
  , install_command := "npm install"
  , start_command := "npm start"
  , health_check_url := some "http://localhost:3000/graphql"
  , service_port := 3000
  , estimated_startup_time := 90
  , reason := "package.json has start script" }

/-- The same plan as the parsed-JSON oracle value. -/
def parsed_npm : ParsedData :=
  { start_method := some "npm"
  , runtime := some "node:20"
  , install_command := some "npm install"
  , start_command := some "npm start"
  , health_check_url := some "http://localhost:3000/graphql"
  , service_port := some 3000
  , estimated_startup_time := some 90
  , reason := some "package.json has start script" }

/-- A not-yet-started project under the npm plan. -/
def proj_npm : RunningProject :=
  { project_id := "abc12345", project_dir := "/proj", config := cfg_npm
  , is_running := false }

/-- A plan with no health-check URL configured. -/
def cfg_nohealth : StartupConfig :=
  { cfg_npm with health_check_url := none }

/-- A project whose plan has no health URL. -/
def projNoHealth : RunningProject :=
  { proj_npm with config := cfg_nohealth }

/-- A started project as stored in the table. -/
def p_old : RunningProject :=
  { project_id := "old", project_dir := "/x", config := cfg_npm
  , is_running := true }

/-- A table already holding one running project. -/
def st0 : RunnerState := tableInsert tableEmpty "old" p_old

/-- World of end-to-end scenario C: a package.json exists, the analysis
plan is the npm plan, test generation succeeds, and the test process
exits 1 with stderr "assertion failed". -/
def envC2 : Env :=
  { envNone with
    files := fun p => if p = "/proj/package.json" then some "name and scripts" else none
  , parseJson := fun _ => some parsed_npm
  , llm := Except.ok "npm plan"
  , genTests := Except.ok "fetch tests"
  , shell := fun c =>
      if containsSub c " node " then
        { timedOut := false, returncode := 1, stdout := "", stderr := "assertion failed" }
      else shellOk }

/-- World whose README exists but whose LLM is unreachable. -/
def envLLMerr : Env :=
  { envNone with files := fun p => if p = "/p/README.md" then some "docs" else none }

/-- World whose README exists but where the unguarded LLM-client
construction raises (pydantic_ai UserError on the falsy default
api_key). -/
def envInitErr : Env :=
  { envLLMerr with
    agentInit := Except.error (PyExc.userError "API key must be provided") }

/-- World in which every command exits non-zero (build/run failures). -/
def env4w : Env :=
  { envNone with
    shell := fun _ =>
      { timedOut := false, returncode := 1, stdout := "build out", stderr := "build err" } }

/-- World in which every command runs past its timeout. -/
def envT : Env :=
  { envNone with
    shell := fun _ =>
      { timedOut := true, returncode := 0, stdout := "", stderr := "" } }

/-- World in which only the in-container `node` test invocation hangs past
its 60s timeout; everything else succeeds. -/
def envT2 : Env :=
  { envNone with
    shell := fun c =>
      if c = "docker exec ca-x node /tmp/test_deadbeef.mjs" then
        { timedOut := true, returncode := 0, stdout := "", stderr := "" }
      else shellOk }

/-! ## Table lemmas -/

theorem tableRemove_mem {st : RunnerState} {k id : String} {p : RunningProject}
    (h : tableRemove st k id = some p) : st id = some p ∧ id ≠ k := by
  unfold tableRemove at h
  by_cases hik : id = k
  · simp [hik] at h
  · rw [if_neg hik] at h
    exact ⟨h, hik⟩

theorem tableInsert_mem {st : RunnerState} {k : String} {v : RunningProject}
    {id : String} {p : RunningProject}
    (h : tableInsert st k v id = some p) : (id = k ∧ p = v) ∨ (id ≠ k ∧ st id = some p) := by
  unfold tableInsert at h
  by_cases hik : id = k
  · rw [if_pos hik] at h
    exact Or.inl ⟨hik, (Option.some.injEq _ _).mp h.symm⟩
  · rw [if_neg hik] at h
    exact Or.inr ⟨hik, h⟩

theorem tableRemove_insert_self (st : RunnerState) (k : String) (v : RunningProject) :
    tableRemove (tableInsert st k v) k = tableRemove st k := by
  funext x
  unfold tableRemove tableInsert
  by_cases hx : x = k <;> simp [hx]

theorem stop_project_state (env : Env) (st : RunnerState) (p : RunningProject) :
    (stop_project env st p).2.1 = tableRemove st p.project_id := rfl

theorem start_project_state_disj (env : Env) (st : RunnerState) (pd : String)
    (cfg : StartupConfig) :
    (∃ q, (start_project env st pd cfg).1 = Except.ok q ∧
          (start_project env st pd cfg).2.1 = tableInsert st env.freshId q ∧
          q.project_id = env.freshId ∧ q.is_running = true) ∨
    ((start_project env st pd cfg).2.1 = tableRemove st env.freshId ∧
     ∃ e, (start_project env st pd cfg).1 = Except.error e) := by
  unfold start_project
  dsimp only
  split
  · split
    · exact Or.inl ⟨_, rfl, rfl, rfl, rfl⟩
    · exact Or.inr ⟨rfl, _, rfl⟩
  · exact Or.inr ⟨rfl, _, rfl⟩

/-! ## C8 — idempotence of stop_project -/

/-- C8: calling `ProjectRunner.stop_project` twice in sequence on the same
`RunningProject` produces no error on the second call (`stop_project`
swallows every teardown exception by construction, so its embedding is
total), and the live-instance table after the second call equals the table
after the first call, the entry for that `project_id` being absent in
both; the first call also clears `is_running`. -/
theorem stop_project_idempotent (env : Env) (st : RunnerState) (p : RunningProject) :
    (stop_project env (stop_project env st p).2.1 (stop_project env st p).1).2.1
      = (stop_project env st p).2.1 ∧
    (stop_project env st p).2.1 p.project_id = none ∧
    (stop_project env (stop_project env st p).2.1 (stop_project env st p).1).2.1
      p.project_id = none ∧
    (stop_project env st p).1.is_running = false := by
  have h1 : (stop_project env st p).2.1 = tableRemove st p.project_id :=
    stop_project_state env st p
  have hpid : (stop_project env st p).1.project_id = p.project_id := rfl
  have h2 : (stop_project env (stop_project env st p).2.1 (stop_project env st p).1).2.1
      = tableRemove (tableRemove st p.project_id) p.project_id := by
    rw [stop_project_state, hpid, h1]
  refine ⟨?_, ?_, ?_, rfl⟩
  · rw [h2, h1]
    funext x
    unfold tableRemove
    by_cases hx : x = p.project_id <;> simp [hx]
  · rw [h1]
    unfold tableRemove
    simp
  · rw [h2]
    unfold tableRemove
    simp

/-! ## C10 — live-table invariant -/

/-- C10: across any sequence of `start_project`/`stop_project` operations
(each under an arbitrary world), the live-instance table only ever holds
projects with `is_running = true`: `start_project` inserts only after its
backend start and health wait both succeeded, setting `is_running := true`
immediately before the insertion, and `stop_project` removes the entry
even when the backend teardown raises. -/
theorem running_table_invariant (st : RunnerState) (ops : List SandboxOp)
    (h : TableInv st) : TableInv (List.foldl applyOp st ops) := by
  induction ops generalizing st with
  | nil => exact h
  | cons op rest ih =>
    refine ih _ ?_
    cases op with
    | startOp env pd cfg =>
      intro id pp hp
      have hap : applyOp st (SandboxOp.startOp env pd cfg)
          = (start_project env st pd cfg).2.1 := rfl
      rw [hap] at hp
      rcases start_project_state_disj env st pd cfg with
        ⟨q, _, hins, _, hrun⟩ | ⟨hrem, _⟩
      · rw [hins] at hp
        rcases tableInsert_mem hp with ⟨_, hpq⟩ | ⟨_, hmem⟩
        · rw [hpq]; exact hrun
        · exact h _ _ hmem
      · rw [hrem] at hp
        exact h _ _ (tableRemove_mem hp).1
    | stopOp env p =>
      intro id pp hp
      have hap : applyOp st (SandboxOp.stopOp env p)
          = (stop_project env st p).2.1 := rfl
      rw [hap, stop_project_state] at hp
      exact h _ _ (tableRemove_mem hp).1

/-- Witness for C10 at a concrete table and operation list: a table
holding one running project keeps the invariant after a stop. -/
theorem running_table_invariant_witness :
    TableInv (List.foldl applyOp st0 [SandboxOp.stopOp envNone p_old]) := by
  refine running_table_invariant st0 [SandboxOp.stopOp envNone p_old] ?_
  intro id p hp
  unfold st0 tableInsert at hp
  by_cases hid : id = "old"
  · rw [if_pos hid] at hp
    cases hp
    rfl
  · rw [if_neg hid] at hp
    cases hp

/-! ## C1 — guaranteed cleanup in run_functional_verification -/

/-- C1: whether `run_functional_verification` returns normally or raises
at any stage (startup analysis, project start, health wait, test
generation, test execution), every entry still present in the
live-instance table after the call was already present before it — in
particular no `RunningProject` created during the call remains. -/
theorem cleanup_guaranteed (env : Env) (st : RunnerState) (pd : String)
    (id : String) (p : RunningProject)
    (h : (run_functional_verification env st pd).2.1 id = some p) :
    st id = some p := by
  unfold run_functional_verification at h
  split at h
  · exact h
  next cfg heqA =>
    split at h
    · exact h
    · split at h
      next e st1 tr heq =>
        rcases start_project_state_disj env st pd cfg with
          ⟨q, hq, _, _, _⟩ | ⟨hrem, _⟩
        · rw [heq] at hq
          cases hq
        · rw [heq] at hrem
          dsimp only at hrem
          rw [hrem] at h
          exact (tableRemove_mem h).1
      next project st1 tr heq =>
        have hiq : st1 = tableInsert st env.freshId project
            ∧ project.project_id = env.freshId := by
          rcases start_project_state_disj env st pd cfg with
            ⟨q, hq, hins, hqid, _⟩ | ⟨_, e, herr⟩
          · rw [heq] at hq hins
            dsimp only at hq hins
            cases hq
            exact ⟨hins, hqid⟩
          · rw [heq] at herr
            cases herr
        have hfin : tableRemove st1 project.project_id id = some p → st id = some p := by
          intro hmem
          rw [hiq.1, hiq.2, tableRemove_insert_self] at hmem
          exact (tableRemove_mem hmem).1
        split at h
        · rw [stop_project_state] at h
          exact hfin h
        · split at h
          · rw [stop_project_state] at h
            exact hfin h
          · rw [stop_project_state] at h
            exact hfin h

/-- Witness for C1: in a concrete world whose startup analysis fails (so
the run raises the unknown-method error), a pre-existing table entry is
exactly what survives the call. -/
theorem cleanup_guaranteed_witness :
    (run_functional_verification envNone st0 "/p").2.1 "old" = some p_old ∧
    st0 "old" = some p_old :=
  ⟨rfl, cleanup_guaranteed envNone st0 "/p" "old" p_old rfl⟩

/-! ## C9 — analyze_startup_method: guarded defaults, unguarded construction -/

/-- Counterexample for C9 as stated: with a recognized config file present
and the LLM-client construction failing (pydantic_ai UserError on the
falsy default api_key), `analyze_startup_method` raises to its caller —
the `AnthropicProvider`/`AnthropicModel`/`Agent` construction at
startup_analyzer.py lines 123-132 sits outside the try block that begins
at line 134, so this failure is not converted into the unknown
sentinel. -/
theorem analyzer_init_raises_cx :
    analyze_startup_method envInitErr "/p" =
      Except.error (PyExc.userError "API key must be provided") := rfl

/-- C9 (amended): `analyze_startup_method` returns the default
`StartupConfig` — whose `start_method` is "unknown" — when no recognized
config file exists (before any LLM client is built), and, once the client
construction has succeeded, when the LLM call fails or when the response
fails to parse as JSON; every exception of the guarded path surfaces only
as the unknown sentinel. But the client construction itself is outside
the try block, so when config files exist and that construction fails the
exception propagates to the caller. -/
theorem analyzer_guarded_default (env : Env) (pd : String) :
    (collect_config_files env pd = [] →
       analyze_startup_method env pd = Except.ok default_config) ∧
    (∀ e, env.agentInit = Except.ok () → env.llm = Except.error e →
       analyze_startup_method env pd = Except.ok default_config) ∧
    (∀ r, env.agentInit = Except.ok () → env.llm = Except.ok r →
       env.parseJson r = none →
       analyze_startup_method env pd = Except.ok default_config) ∧
    (∀ e, env.agentInit = Except.error e →
       (collect_config_files env pd).isEmpty = false →
       analyze_startup_method env pd = Except.error e) ∧
    default_config.start_method = "unknown" := by
  refine ⟨?_, ?_, ?_, ?_, rfl⟩
  · intro h
    unfold analyze_startup_method
    rw [h]
    rfl
  · intro e hinit he
    unfold analyze_startup_method
    dsimp only
    split
    · rfl
    · rw [hinit]
      dsimp only
      rw [he]
  · intro r hinit hr hp
    unfold analyze_startup_method
    dsimp only
    split
    · rfl
    · rw [hinit]
      dsimp only
      rw [hr]
      dsimp only
      rw [hp]
  · intro e hinit hne
    unfold analyze_startup_method
    dsimp only
    split
    next hemp => rw [hemp] at hne; cases hne
    next => rw [hinit]

/-- Witness for C9's amended theorem: no config files gives the default;
a README with an unreachable LLM (construction fine) gives the default;
a README with a failing client construction raises. -/
theorem analyzer_guarded_default_witness :
    analyze_startup_method envNone "/p" = Except.ok default_config ∧
    analyze_startup_method envLLMerr "/p" = Except.ok default_config ∧
    analyze_startup_method envInitErr "/p" =
      Except.error (PyExc.userError "API key must be provided") :=
  ⟨(analyzer_guarded_default envNone "/p").1 rfl,
   (analyzer_guarded_default envLLMerr "/p").2.1
     (PyExc.runtimeError "LLM unavailable") rfl rfl,
   (analyzer_guarded_default envInitErr "/p").2.2.2.1
     (PyExc.userError "API key must be provided") rfl rfl⟩

/-! ## C4 — provisioning failures and _run_command -/

/-- C4: for every isolation-backend start variant (docker-compose,
dockerfile, native) the start operation raises to the lifecycle manager
instead of continuing — in the current code it raises unconditionally,
because the first statement of each variant reads the non-existent
`config.working_dir` field, so in particular it raises whenever the
manifest is missing or a build/run command would fail, with no
provisioning command ever executed (empty trace); and, as the claim's
parenthetical notes, `_run_command` itself returns the captured output for
any non-zero exit without raising. -/
theorem provisioning_failure_raises (env : Env) (p : RunningProject)
    (cmd cwd : String) (t : Nat)
    (hrc : (env.shell cmd).returncode ≠ 0) (hto : (env.shell cmd).timedOut = false) :
    (∃ e, start_docker_compose env p = (Except.error e, [])) ∧
    (∃ e, start_dockerfile env p = (Except.error e, [])) ∧
    (∃ e, start_native env p = (Except.error e, [])) ∧
    run_command env cmd cwd t = (Except.ok ((env.shell cmd).stdout, (env.shell cmd).stderr), [cmd]) := by
  have _ := hrc
  refine ⟨⟨_, rfl⟩, ⟨_, rfl⟩, ⟨_, rfl⟩, ?_⟩
  unfold run_command
  dsimp only
  rw [hto]
  rfl

/-- Witness for C4: a world whose every command exits 1 — the build
command's failure is returned as data by `_run_command`, and the native
start raises. -/
theorem provisioning_failure_raises_witness :
    run_command env4w "docker build -t ca-image-abc12345 ." "/proj" 120 =
      (Except.ok ("build out", "build err"), ["docker build -t ca-image-abc12345 ."]) ∧
    (∃ e, start_native env4w proj_npm = (Except.error e, [])) := by
  have h := provisioning_failure_raises env4w proj_npm
    "docker build -t ca-image-abc12345 ." "/proj" 120 (by decide) (by decide)
  exact ⟨h.2.2.2, h.2.2.1⟩

/-! ## C5 — command timeout semantics -/

/-- Counterexample for C5 as stated: a command that runs past its timeout
makes `ProjectRunner._run_command` raise a RuntimeError (modelled as
`Except.error`), rather than return a failure result — the error text does
state the timeout, but it is a raised exception, not a returned value. -/
theorem run_command_timeout_cx :
    run_command envT "sleep 100" "/w" 60 =
      (Except.error (PyExc.runtimeError "Command timeout after 60s: sleep 100"),
       ["sleep 100"]) := rfl

/-- C5 (amended): on timeout `ProjectRunner._run_command` kills the
process and raises a RuntimeError whose message states the timeout and the
command; only `TestRunner._execute_tests` converts its 60s test timeout
into a returned failure — passed = false with the log
"Test execution timeout (60s)" — without raising. -/
theorem timeout_behavior :
    (∀ (env : Env) (cmd cwd : String) (t : Nat), (env.shell cmd).timedOut = true →
       run_command env cmd cwd t =
         (Except.error (PyExc.runtimeError
           ("Command timeout after " ++ toString t ++ "s: " ++ cmd)), [cmd])) ∧
    (∀ (env : Env) (tc cn : String),
       (env.shell (copy_cmd env cn)).returncode = 0 →
       (env.shell (exec_cmd env cn)).timedOut = true →
       execute_tests env tc cn =
         ((false, "Test execution timeout (60s)"),
          [copy_cmd env cn, exec_cmd env cn, cleanup_cmd env cn])) := by
  constructor
  · intro env cmd cwd t hto
    unfold run_command
    dsimp only
    rw [hto]
    rfl
  · intro env tc cn hrc hto
    unfold execute_tests
    dsimp only
    rw [hrc, hto]
    simp

/-- Witness for C5's amended theorem: the timing-out shell world yields
the raised RuntimeError from `_run_command`, and a hanging in-container
`node` invocation yields the returned timeout failure from
`_execute_tests`. -/
theorem timeout_behavior_witness :
    run_command envT "sleep 100" "/w2" 30 =
      (Except.error (PyExc.runtimeError "Command timeout after 30s: sleep 100"),
       ["sleep 100"]) ∧
    execute_tests envT2 "code" "ca-x" =
      ((false, "Test execution timeout (60s)"),
       [copy_cmd envT2 "ca-x", exec_cmd envT2 "ca-x", cleanup_cmd envT2 "ca-x"]) := by
  have h1 := timeout_behavior.1 envT "sleep 100" "/w2" 30 (by decide)
  have h2 := timeout_behavior.2 envT2 "code" "ca-x" (by decide) (by decide)
  exact ⟨h1, h2⟩

/-! ## C6 — native start command -/

/-- Counterexample for C6 as stated: under the npm plan with
`install_command = "npm install"` and `start_command = "npm start"`,
`_start_native` raises AttributeError (reading the non-existent
`config.working_dir`) and executes no container command at all (empty
trace); moreover even the docker command it builds does not contain
`install_command && start_command`. -/
theorem native_install_command_cx :
    start_native envNone proj_npm =
      (Except.error (PyExc.attributeError
        "\x27StartupConfig\x27 object has no attribute \x27working_dir\x27"), []) ∧
    cfg_npm.install_command = "npm install" ∧
    cfg_npm.start_command = "npm start" ∧
    containsSub (nativeDockerCmd cfg_npm "ca-abc12345" "/proj/") "npm install && npm start"
      = false :=
  ⟨rfl, rfl, rfl, by decide⟩

/-- C6 (amended): for every npm/python plan `_start_native` raises
AttributeError (the `StartupConfig` dataclass has no working-dir field)
and runs nothing; the docker command it would build is invariant under
`install_command` — the command executed inside the detached container (if
the attribute existed) is `sh -c <start_command>` with the working dir
mounted read-write at /app, falling back on a runtime-specific
install-and-start default only when `start_command` is empty. -/
theorem native_start_behavior :
    (∀ (env : Env) (p : RunningProject),
       p.config.start_method = "npm" ∨ p.config.start_method = "python" →
       start_native env p =
         (Except.error (PyExc.attributeError
           "\x27StartupConfig\x27 object has no attribute \x27working_dir\x27"), [])) ∧
    (∀ (cfg : StartupConfig) (cn wd ic : String),
       nativeDockerCmd { cfg with install_command := ic } cn wd = nativeDockerCmd cfg cn wd) ∧
    (∀ (cfg : StartupConfig) (cn wd : String), cfg.start_method = "npm" →
       cfg.start_command ≠ "" →
       nativeDockerCmd cfg cn wd =
         "docker run -d --name " ++ cn ++ " -p " ++ toString cfg.service_port ++ ":"
           ++ toString cfg.service_port ++ " -v " ++ wd ++ ":/app -w /app "
           ++ "node:20-slim" ++ " sh -c \x27" ++ cfg.start_command ++ "\x27") := by
  refine ⟨fun env p _ => rfl, fun cfg cn wd ic => rfl, ?_⟩
  intro cfg cn wd hm hs
  unfold nativeDockerCmd
  dsimp only
  rw [if_pos hm, if_pos hm, if_neg hs]

/-- Witness for C6's amended theorem at the concrete npm plan. -/
theorem native_start_behavior_witness :
    start_native envNone projNoHealth =
      (Except.error (PyExc.attributeError
        "\x27StartupConfig\x27 object has no attribute \x27working_dir\x27"), []) ∧
    nativeDockerCmd cfg_npm "ca-1" "/w" =
      "docker run -d --name " ++ "ca-1" ++ " -p " ++ toString cfg_npm.service_port ++ ":"
        ++ toString cfg_npm.service_port ++ " -v " ++ "/w" ++ ":/app -w /app "
        ++ "node:20-slim" ++ " sh -c \x27" ++ cfg_npm.start_command ++ "\x27" :=
  ⟨native_start_behavior.1 envNone projNoHealth (Or.inl rfl),
   native_start_behavior.2.2 cfg_npm "ca-1" "/w" rfl (by decide)⟩

/-! ## C7 — health prober -/

theorem health_loop_bad (env : Env)
    (hp : ∀ j s, env.probe j = some s → 500 ≤ s) :
    ∀ fuel i, health_loop env fuel i =
      Except.error (PyExc.runtimeError health_timeout_msg) := by
  intro fuel
  induction fuel with
  | zero => intro i; rfl
  | succ n ih =>
    intro i
    unfold health_loop
    split
    · rfl
    · cases hq : env.probe i with
      | none => exact ih (i + 1)
      | some s =>
        have h5 := hp i s hq
        dsimp only
        rw [if_neg (by omega)]
        exact ih (i + 1)

theorem health_loop_good (env : Env) :
    ∀ (fuel i j : Nat), i ≤ j → j < i + fuel →
      (∀ k, i ≤ k → k ≤ j → env.elapsedAt k ≤ STARTUP_TIMEOUT) →
      (∀ k, i ≤ k → k < j → ∀ s, env.probe k = some s → 500 ≤ s) →
      (∃ s, env.probe j = some s ∧ s < 500) →
      health_loop env fuel i = Except.ok () := by
  intro fuel
  induction fuel with
  | zero => intro i j hij hlt _ _ _; omega
  | succ n ih =>
    intro i j hij hlt hel hbad hgood
    unfold health_loop
    have hle : env.elapsedAt i ≤ STARTUP_TIMEOUT := hel i le_rfl hij
    rw [if_neg (by omega)]
    by_cases hij0 : i = j
    · subst hij0
      rcases hgood with ⟨s, hs, hs5⟩
      rw [hs]
      dsimp only
      rw [if_pos hs5]
    · have hij1 : i < j := lt_of_le_of_ne hij hij0
      cases hq : env.probe i with
      | none =>
        exact ih (i + 1) j hij1 (by omega)
          (fun k h1 h2 => hel k (by omega) h2)
          (fun k h1 h2 => hbad k (by omega) h2) hgood
      | some s =>
        have h5 := hbad i le_rfl hij1 s hq
        dsimp only
        rw [if_neg (by omega)]
        exact ih (i + 1) j hij1 (by omega)
          (fun k h1 h2 => hel k (by omega) h2)
          (fun k h1 h2 => hbad k (by omega) h2) hgood

/-- Counterexample for C7 as stated: in a world where no probe ever
connects and container logs exist ("connection refused"), the health wait
fails with the bare RuntimeError "Health check timeout after 120s" — a
message that does not contain the captured container logs, so the
timeout error carries no logs. -/
theorem health_error_without_logs_cx :
    wait_for_health envNone proj_npm =
      Except.error (PyExc.runtimeError "Health check timeout after 120s") ∧
    envNone.containerLogs = "connection refused" ∧
    containsSub "Health check timeout after 120s" "connection refused" = false := by
  refine ⟨?_, rfl, by decide⟩
  exact health_loop_bad envNone (fun j s h => by simp [envNone] at h) 200 0

/-- C7 (amended): the health wait (1) returns success unconditionally
when no (truthy) health URL is configured; (2) with a URL, returns success
as soon as the first probe with status below 500 arrives before the
deadline, earlier connection errors and server errors being swallowed
(the wall clock advancing at least 2 seconds per poll); and (3) when no
probe ever yields a status below 500 it raises a RuntimeError whose
message only states the 120s timeout — the current code captures no
container logs. -/
theorem health_wait_contract :
    (∀ (env : Env) (p : RunningProject),
       optFalsy p.config.health_check_url = true →
       wait_for_health env p = Except.ok ()) ∧
    (∀ (env : Env) (p : RunningProject) (j : Nat),
       optFalsy p.config.health_check_url = false →
       (∀ k, 2 * k ≤ env.elapsedAt k) →
       (∀ k, k ≤ j → env.elapsedAt k ≤ STARTUP_TIMEOUT) →
       (∀ k, k < j → ∀ s, env.probe k = some s → 500 ≤ s) →
       (∃ s, env.probe j = some s ∧ s < 500) →
       wait_for_health env p = Except.ok ()) ∧
    (∀ (env : Env) (p : RunningProject),
       optFalsy p.config.health_check_url = false →
       (∀ k s, env.probe k = some s → 500 ≤ s) →
       wait_for_health env p =
         Except.error (PyExc.runtimeError health_timeout_msg)) := by
  refine ⟨?_, ?_, ?_⟩
  · intro env p hf
    unfold wait_for_health
    rw [hf]
    rfl
  · intro env p j hf hclock hel hbad hgood
    unfold wait_for_health
    rw [hf]
    have hj : j ≤ 60 := by
      have h1 := hclock j
      have h2 := hel j le_rfl
      unfold STARTUP_TIMEOUT at h2
      omega
    exact health_loop_good env 200 0 j (Nat.zero_le j) (by omega)
      (fun k _ h2 => hel k h2) (fun k _ h2 => hbad k h2) hgood
  · intro env p hf hbad
    unfold wait_for_health
    rw [hf]
    exact health_loop_bad env hbad 200 0

/-- Witness for C7's amended theorem: a plan without a health URL succeeds
immediately, and a never-connecting world times out with the bare
message. -/
theorem health_wait_contract_witness :
    wait_for_health envNone projNoHealth = Except.ok () ∧
    wait_for_health envT proj_npm =
      Except.error (PyExc.runtimeError health_timeout_msg) :=
  ⟨health_wait_contract.1 envNone projNoHealth rfl,
   health_wait_contract.2.2 envT proj_npm rfl
     (fun k s h => by simp [envT, envNone] at h)⟩

/-! ## C3 — unknown start method -/

/-- Counterexample for C3 as stated: with an undetermined start method,
`run_functional_verification` itself raises the RuntimeError "Could not
determine how to start the project" to its caller — it does not return a
non-fatal outcome (the empty trace confirms no provisioning command was
run). -/
theorem unknown_method_raises_cx :
    (run_functional_verification envNone tableEmpty "/p").1 =
      Except.error (PyExc.runtimeError "Could not determine how to start the project") ∧
    (run_functional_verification envNone tableEmpty "/p").2.2 = ([] : List String) :=
  ⟨rfl, rfl⟩

/-- C3 (amended): whenever the startup analysis returns (rather than
raises) the "unknown"
sentinel, `run_functional_verification` executes no provisioning command
and never reaches `start_project` (state unchanged, trace empty), raising
RuntimeError "Could not determine how to start the project" to its
caller; the calling layer `_analyze_with_verification` catches it and
produces the non-fatal outcome with `tests_passed = false` whose log
carries that explanation. -/
theorem unknown_method_boundary (env : Env) (st : RunnerState) (pd : String)
    (c : StartupConfig)
    (hok : analyze_startup_method env pd = Except.ok c)
    (h : c.start_method = "unknown") :
    run_functional_verification env st pd =
      (Except.error (PyExc.runtimeError "Could not determine how to start the project"),
       st, []) ∧
    verification_boundary env st pd =
      ({ generated_test_code :=
           "# Verification failed: Could not determine how to start the project"
       , execution_result :=
           { tests_passed := false
           , log := "Error: Could not determine how to start the project" } }, st) := by
  have h1 : run_functional_verification env st pd =
      (Except.error (PyExc.runtimeError "Could not determine how to start the project"),
       st, []) := by
    unfold run_functional_verification
    rw [hok]
    dsimp only
    rw [if_pos h]
  refine ⟨h1, ?_⟩
  unfold verification_boundary
  rw [h1]
  rfl

/-- Witness for C3's amended theorem: the empty world has no config files,
so the analysis yields the unknown sentinel; the boundary converts the
raised error into the degraded outcome. -/
theorem unknown_method_boundary_witness :
    verification_boundary envNone st0 "/q" =
      ({ generated_test_code :=
           "# Verification failed: Could not determine how to start the project"
       , execution_result :=
           { tests_passed := false
           , log := "Error: Could not determine how to start the project" } }, st0) :=
  (unknown_method_boundary envNone st0 "/q" default_config rfl rfl).2

/-! ## C2 — end-to-end scenario C is unreachable -/

/-- C2: in the scenario-C world (project analysable as npm, test command
exiting 1 with stderr "assertion failed"), the verification run does not
return the scenario's `FunctionalVerification`: it raises — the start
path reads the non-existent `config.working_dir` (AttributeError, wrapped
into the start RuntimeError), and even a started project would fail at
`project.container_name`, which `RunningProject` does not declare. -/
theorem scenario_c_unreachable :
    (run_functional_verification envC2 tableEmpty "/proj").1 =
      Except.error (PyExc.runtimeError
        ("Failed to start project: "
          ++ "\x27StartupConfig\x27 object has no attribute \x27working_dir\x27")) ∧
    container_name_attr proj_npm =
      Except.error (PyExc.attributeError
        "\x27RunningProject\x27 object has no attribute \x27container_name\x27") :=
  ⟨rfl, rfl⟩

end CodeAnalyzer
